import Mathlib

/-!
Shallow embedding of the two Flask services of the repository
(`src/applications/api/app.py` and `src/applications/database/app.py`).

Request bodies parsed by `request.get_json()` are arbitrary JSON values,
modelled by `JVal` below (floating point numbers are out of scope; the only
numeric values the services manipulate are integer ids and timestamps, so
numbers are modelled as `Int` and `time.time()` is passed in as an integer
parameter `now`).  Handlers are pure functions from the request data and the
process state to an `HResult` (a normal `(status, json-body)` response, or a
raised Python exception, which Flask's default error boundary reports as a
500) together with the successor state.

The external Redis store is modelled as an association list from key strings
to values that are either plain strings (`SET`) or field hashes (`HSET`).
Redis stores every hash field as a byte string; an integer field is stored as
its decimal rendering, modelled by the tagged value `RField.fint n` (decimal
rendering of integers is injective and parses back exactly), while string
fields are `RField.fstr`.  Key TTLs (`EXPIRE`) are not modelled: no claim
depends on expiry.
-/

set_option maxHeartbeats 1000000

namespace DdOtel

mutual

/-- JSON value as produced by Flask's `request.get_json()`.  Arrays and
objects carry the mutual list types `JList` and `JFields` (JSON numbers are
restricted to integers, see the file header). -/
inductive JVal where
  | jnull
  | jbool (b : Bool)
  | jint (n : Int)
  | jstr (s : String)
  | jarr (elems : JList)
  | jobj (fields : JFields)
deriving DecidableEq, Repr

/-- List of JSON values (element list of a JSON array). -/
inductive JList where
  | nil
  | cons (hd : JVal) (tl : JList)
deriving DecidableEq, Repr

/-- Field list of a JSON object, in insertion order (Python dicts preserve
insertion order and have unique keys). -/
inductive JFields where
  | nil
  | cons (key : String) (val : JVal) (tl : JFields)
deriving DecidableEq, Repr

end

/-- Conversion from a Lean list of key/value pairs, used by the smart
constructor `JVal.obj`. -/
def JFields.ofList : List (String × JVal) → JFields
  | [] => .nil
  | (k, v) :: rest => .cons k v (JFields.ofList rest)

/-- Conversion from a Lean list, used by the smart constructor `JVal.arr`. -/
def JList.ofList : List JVal → JList
  | [] => .nil
  | v :: rest => .cons v (JList.ofList rest)

/-- Conversion of a JSON array payload back to a Lean list. -/
def JList.toList : JList → List JVal
  | .nil => []
  | .cons v rest => v :: rest.toList

/-- Smart constructor for JSON objects. -/
def JVal.obj (l : List (String × JVal)) : JVal := .jobj (JFields.ofList l)

/-- Smart constructor for JSON arrays. -/
def JVal.arr (l : List JVal) : JVal := .jarr (JList.ofList l)

/-- Number of fields of a JSON object field list. -/
def JFields.length : JFields → Nat
  | .nil => 0
  | .cons _ _ rest => 1 + rest.length

/-- Dictionary key lookup, modelling `data[k]` / `data.get(k, d)` on a Python
dict (keys are unique in a parsed JSON object, so first match is the match). -/
def JFields.lookup (k : String) : JFields → Option JVal
  | .nil => none
  | .cons k' v rest => if k' = k then some v else JFields.lookup k rest

/-- Membership of an element in a JSON array, modelling Python `x in list`
(element-wise equality). -/
def JList.containsV (v : JVal) : JList → Bool
  | .nil => false
  | .cons h t => h = v || JList.containsV v t

/-- Emptiness test for a JSON array payload. -/
def JList.isNil : JList → Bool
  | .nil => true
  | .cons _ _ => false

/-- Emptiness test for a JSON object field list. -/
def JFields.isNil : JFields → Bool
  | .nil => true
  | .cons _ _ _ => false

/-- Python truthiness (`bool(x)`) on JSON values: `None`, `False`, `0`, the
empty string, the empty list and the empty dict are falsy. -/
def pyTruthy : JVal → Bool
  | .jnull => false
  | .jbool b => b
  | .jint n => n ≠ 0
  | .jstr s => s ≠ ""
  | .jarr l => !l.isNil
  | .jobj fs => !fs.isNil

/-- Contiguous-subsequence test on character lists, modelling Python's
substring test `needle in haystack` on strings. -/
def containsSeq (needle : List Char) : List Char → Bool
  | [] => needle.isEmpty
  | c :: rest => needle.isPrefixOf (c :: rest) || containsSeq needle rest

/-- Result of evaluating Python `key in data`: membership, non-membership, or
a `TypeError` because `data` does not support the `in` operator. -/
inductive InResult where
  | yes
  | no
  | typeErr
deriving DecidableEq, Repr

/-- Python `key in data` for a string `key`: key membership on dicts,
element membership on lists, substring test on strings, and a `TypeError` on
`None`, booleans and numbers. -/
def pyContains (key : String) : JVal → InResult
  | .jobj fs => if (fs.lookup key).isSome then .yes else .no
  | .jarr l => if l.containsV (.jstr key) then .yes else .no
  | .jstr s => if containsSeq key.toList s.toList then .yes else .no
  | _ => .typeErr

/-- Python `str(x)` restricted to what the services interpolate into strings.
Container renderings are abbreviated (no claim exercises them). -/
def pyStrJ : JVal → String
  | .jnull => "None"
  | .jbool b => if b then "True" else "False"
  | .jint n => toString n
  | .jstr s => s
  | .jarr _ => "[...]"
  | .jobj _ => "\x7b...\x7d"

/-- Python `max(c, v) + 1` as used on the fallback id counter: defined for
integers (and booleans, which Python treats as 0/1); any other value raises a
`TypeError`, modelled by `none`. -/
def pyMaxCounter (c : Int) : JVal → Option Int
  | .jint n => some (max c n)
  | .jbool b => some (max c (if b then 1 else 0))
  | _ => none

/-- Hashability of a Python value, deciding whether it can be used as a dict
key (`memory_users[user_id] = user`): lists and dicts are unhashable. -/
def pyHashable : JVal → Bool
  | .jarr _ => false
  | .jobj _ => false
  | _ => true

/-- Association-list update with Python dict assignment semantics: an
existing key keeps its position and gets the new value, a new key is
appended (Python dicts preserve insertion order). -/
def assocSet {κ α : Type} [DecidableEq κ] (k : κ) (v : α) :
    List (κ × α) → List (κ × α)
  | [] => [(k, v)]
  | (k', v') :: rest =>
      if k' = k then (k, v) :: rest else (k', v') :: assocSet k v rest

/-- Association-list removal, modelling Python `del d[k]` / Redis `DEL`. -/
def assocRemove {κ α : Type} [DecidableEq κ] (k : κ) :
    List (κ × α) → List (κ × α)
  | [] => []
  | (k', v') :: rest =>
      if k' = k then assocRemove k rest else (k', v') :: assocRemove k rest

/-- Kinds of Python exception the services raise. -/
inductive ExcKind where
  | valueError
  | typeErrorK
  | attributeError
  | indexError
  | keyError
  | zeroDivisionError
  | memoryErrorK
  | timeoutErrorK
  | connectionError
  | runtimeError
  | osError
  | permissionErrorK
  | fileNotFoundError
  | jsonDecodeError
  | dataError
  | wrongTypeError
  | genericException
  | customApplicationError
deriving DecidableEq, Repr

/-- A raised Python exception: its class and its message. -/
structure PyExc where
  kind : ExcKind
  msg : String
deriving DecidableEq, Repr

/-- Outcome of one request handler: either an explicit `(status, body)`
response, or an exception that escaped the handler. -/
inductive HResult where
  | resp (status : Nat) (body : JVal)
  | raised (exc : PyExc)
deriving DecidableEq, Repr

/-- HTTP status the client observes: Flask's default error boundary turns an
uncaught exception into a 500 response. -/
def flaskStatus : HResult → Nat
  | .resp s _ => s
  | .raised _ => 500

/-- Value of one Redis hash field: a plain byte string, or the decimal
rendering of an integer kept in tagged form (see the file header). -/
inductive RField where
  | fstr (s : String)
  | fint (n : Int)
deriving DecidableEq, Repr

/-- Value stored under one Redis key: a plain string (`SET`) or a field hash
(`HSET`). -/
inductive RVal where
  | rstr (s : String)
  | rhash (fields : List (String × RField))
deriving Repr

/-- External Redis store: keys to values, in insertion order. -/
structure RedisState where
  data : List (String × RVal)
deriving Repr

/-- Process state of the database service: the startup Redis-availability
decision (`redis_client` is not `None`), the external store, and the
in-memory fallback dict `memory_users` (keys are the Python values used as
ids) with its id counter `memory_counter`. -/
structure DbState where
  redisAvailable : Bool
  redis : RedisState
  memory_users : List (JVal × JVal)
  memory_counter : Int
deriving Repr

/-- Python `str(x)` / `int(x)` composition on a hash field read back from
Redis, as in `int(user_data.get('id', 0))`: a tagged integer parses back to
itself; a plain string goes through integer parsing (`String.toInt?` models
Python `int()` on the strings that occur here), raising `ValueError` (`none`)
when it does not parse. -/
def rfieldToInt : RField → Option Int
  | .fint n => some n
  | .fstr s => s.toInt?

/-- String content of a hash field (`user_data.get('name', '')`): tagged
integers render in decimal. -/
def rfieldToStr : RField → String
  | .fstr s => s
  | .fint n => toString n

/-- Encoding of one Python value as a Redis hash-field value, as done by
`hset(..., mapping=user)`: redis-py accepts `str` and `int` and raises
`DataError` on `None`, booleans, lists and dicts (`none`). -/
def redisEncodeVal : JVal → Option RField
  | .jint n => some (.fint n)
  | .jstr s => some (.fstr s)
  | _ => none

/-- Encoding of a whole field list for `hset(..., mapping=user)`; fails
(`DataError`) as soon as one value is not encodable. -/
def redisEncodeObj : List (String × JVal) → Option (List (String × RField))
  | [] => some []
  | (k, v) :: rest => do
      let f ← redisEncodeVal v
      let r ← redisEncodeObj rest
      pure ((k, f) :: r)

/-- Reconstruction of one user record from a Redis hash, field by field with
zero/empty defaults, as in the bodies of `get_users` and `get_user` of
`src/applications/database/app.py` (lines 62-67 and 135-140).  `none` models
a `ValueError` raised by `int()`/`float()` on an unparsable field. -/
def decodeUser (fs : List (String × RField)) : Option JVal := do
  let idv ← rfieldToInt ((fs.lookup "id").getD (.fint 0))
  let nm := rfieldToStr ((fs.lookup "name").getD (.fstr ""))
  let em := rfieldToStr ((fs.lookup "email").getD (.fstr ""))
  let ct ← rfieldToInt ((fs.lookup "created_at").getD (.fint 0))
  pure (.obj [("id", .jint idv), ("name", .jstr nm), ("email", .jstr em),
              ("created_at", .jint ct)])

/-- Loop body of `get_users` (redis branch): `hgetall` every key and collect
the decoded records, skipping empty hashes (`if user_data:`); `HGETALL` on a
key holding a plain string raises `WRONGTYPE`, and an unparsable field raises
`ValueError`, both modelled by `none` (caught by the handler, which then
returns its 500 response). -/
def collectUsers : List (String × RVal) → Option (List JVal)
  | [] => some []
  | (_, .rstr _) :: _ => none
  | (_, .rhash fs) :: rest =>
      if fs.isEmpty then collectUsers rest
      else do
        let u ← decodeUser fs
        let us ← collectUsers rest
        pure (u :: us)

/-- Key under which a user is stored in Redis: `f"user:\x7buser_id\x7d"`. -/
def userKey (uid : JVal) : String := "user:" ++ pyStrJ uid

/-- Handler `get_users` of the database service (`GET /database/users`,
`src/applications/database/app.py` lines 48-80). -/
def db_get_users (st : DbState) : HResult :=
  if st.redisAvailable then
    let entries := st.redis.data.filter (fun kv => kv.1.startsWith "user:")
    match collectUsers entries with
    | none => .resp 500 (.obj [("error", .jstr "Failed to fetch users")])
    | some us =>
        .resp 200 (.obj [("users", .arr us), ("count", .jint us.length),
                         ("source", .jstr "database-service"),
                         ("storage", .jstr "redis")])
  else
    let us := st.memory_users.map (fun kv => kv.2)
    .resp 200 (.obj [("users", .arr us), ("count", .jint us.length),
                     ("source", .jstr "database-service"),
                     ("storage", .jstr "memory")])

/-- Handler `create_user` of the database service (`POST /database/users`,
`src/applications/database/app.py` lines 82-120).  `body` is `none` when
`request.get_json()` produced no JSON value.  The guard
`if not data or 'name' not in data` runs before the `try` block, so a
`TypeError` raised by `in` on a number escapes the handler; everything from
`data.get('id', memory_counter)` on is inside `try`, so an
`AttributeError`/`TypeError`/`DataError` there yields the handler's own
500 response — note that the fallback-dict insertion precedes the counter
update `memory_counter = max(memory_counter, user_id) + 1`, so an id that
breaks `max` leaves the inserted record behind. -/
def db_create_user (body : Option JVal) (now : Int) (st : DbState) :
    HResult × DbState :=
  match body with
  | none => (.resp 400 (.obj [("error", .jstr "Name is required")]), st)
  | some data =>
    if !pyTruthy data then
      (.resp 400 (.obj [("error", .jstr "Name is required")]), st)
    else
      match pyContains "name" data with
      | .typeErr =>
          (.raised ⟨.typeErrorK, "argument of type is not iterable"⟩, st)
      | .no => (.resp 400 (.obj [("error", .jstr "Name is required")]), st)
      | .yes =>
        match data with
        | .jobj fs =>
          let user_id := (fs.lookup "id").getD (.jint st.memory_counter)
          let userFields : List (String × JVal) :=
            [("id", user_id),
             ("name", (fs.lookup "name").getD .jnull),
             ("email", (fs.lookup "email").getD (.jstr "")),
             ("created_at", (fs.lookup "created_at").getD (.jint now))]
          let user : JVal := .obj userFields
          if st.redisAvailable then
            match redisEncodeObj userFields with
            | none =>
                (.resp 500 (.obj [("error", .jstr "Failed to create user")]),
                 st)
            | some h =>
                (.resp 201 (.obj [("user", user), ("storage", .jstr "redis")]),
                 { st with redis :=
                     ⟨assocSet (userKey user_id) (.rhash h) st.redis.data⟩ })
          else
            if !pyHashable user_id then
              (.resp 500 (.obj [("error", .jstr "Failed to create user")]), st)
            else
              let mem := assocSet user_id user st.memory_users
              match pyMaxCounter st.memory_counter user_id with
              | none =>
                  (.resp 500 (.obj [("error", .jstr "Failed to create user")]),
                   { st with memory_users := mem })
              | some m =>
                  (.resp 201 (.obj [("user", user),
                                    ("storage", .jstr "memory")]),
                   { st with memory_users := mem, memory_counter := m + 1 })
        | _ =>
            -- a truthy non-dict that passed the `in` test: `data.get`
            -- raises AttributeError inside `try`
            (.resp 500 (.obj [("error", .jstr "Failed to create user")]), st)

/-- Handler `get_user` of the database service
(`GET /database/users/<int:user_id>`, `src/applications/database/app.py`
lines 122-153).  The route converter only matches nonnegative integers. -/
def db_get_user (user_id : Nat) (st : DbState) : HResult :=
  if st.redisAvailable then
    match st.redis.data.lookup (userKey (.jint (user_id : Int))) with
    | none => .resp 404 (.obj [("error", .jstr "User not found")])
    | some (.rstr _) =>
        -- `hgetall` on a plain-string key raises WRONGTYPE, caught by the
        -- handler's `except`
        .resp 500 (.obj [("error", .jstr "Failed to fetch user")])
    | some (.rhash fs) =>
        if fs.isEmpty then .resp 404 (.obj [("error", .jstr "User not found")])
        else
          match decodeUser fs with
          | none => .resp 500 (.obj [("error", .jstr "Failed to fetch user")])
          | some u =>
              .resp 200 (.obj [("user", u), ("storage", .jstr "redis")])
  else
    match st.memory_users.lookup (.jint (user_id : Int)) with
    | none => .resp 404 (.obj [("error", .jstr "User not found")])
    | some u =>
        if pyTruthy u then
          .resp 200 (.obj [("user", u), ("storage", .jstr "memory")])
        else .resp 404 (.obj [("error", .jstr "User not found")])

/-- Handler `delete_user` of the database service
(`DELETE /database/users/<int:user_id>`, `src/applications/database/app.py`
lines 155-179). -/
def db_delete_user (user_id : Nat) (st : DbState) : HResult × DbState :=
  if st.redisAvailable then
    let key := userKey (.jint (user_id : Int))
    match st.redis.data.lookup key with
    | none => (.resp 404 (.obj [("error", .jstr "User not found")]), st)
    | some _ =>
        (.resp 200 (.obj [("message",
                            .jstr ("User " ++ toString (user_id : Int)
                                     ++ " deleted")),
                          ("storage", .jstr "redis")]),
         { st with redis := ⟨assocRemove key st.redis.data⟩ })
  else
    match st.memory_users.lookup (.jint (user_id : Int)) with
    | none => (.resp 404 (.obj [("error", .jstr "User not found")]), st)
    | some _ =>
        (.resp 200 (.obj [("message",
                            .jstr ("User " ++ toString (user_id : Int)
                                     ++ " deleted")),
                          ("storage", .jstr "memory")]),
         { st with memory_users :=
             assocRemove (.jint (user_id : Int)) st.memory_users })

/-- Environment facts the fault catalog depends on but that are not decided
by the program itself: whether Redis refuses the 100MB `SET`
(`redis_memory_error`), whether the Python runtime refuses the large list
allocation (`memory_error`), and whether httpbin.org is reachable
(`network_timeout`). -/
structure Env where
  redisBigSetFails : Bool
  memAllocFails : Bool
  httpbinReachable : Bool
deriving Repr

/-- Scenario names enumerated by `GET /database/errors/test` in list mode
(`src/applications/database/app.py` lines 228-239). -/
def db_error_names : List String :=
  ["redis_connection_error", "redis_timeout", "redis_memory_error",
   "data_corruption", "serialization_error", "key_not_found",
   "transaction_rollback", "connection_pool_exhausted", "disk_full",
   "permission_denied"]

/-- Fault dispatcher `trigger_database_error` of the database service
(`src/applications/database/app.py` lines 246-349), an `if/elif` chain on
the scenario name ending in a `ValueError` for unrecognized names.
Wall-clock effects (sleeps, socket timeouts) are reflected only in which
exception is raised; the 100MB payload of `redis_memory_error` is the
literal `'x' * (100 * 1024 * 1024)`. -/
def trigger_database_error (error_type : String) (env : Env) (st : DbState) :
    HResult × DbState :=
  if error_type = "redis_connection_error" then
    -- ping() against nonexistent-redis-host raises ConnectionError
    (.raised ⟨.connectionError,
              "Error connecting to nonexistent-redis-host:6379"⟩, st)
  else if error_type = "redis_timeout" then
    if st.redisAvailable then
      -- DEBUG SLEEP 10 outlasts the 2 second client socket timeout
      (.raised ⟨.timeoutErrorK, "Timeout reading from socket"⟩, st)
    else
      (.raised ⟨.timeoutErrorK,
                "Redis timeout simulation - Redis not available"⟩, st)
  else if error_type = "redis_memory_error" then
    if st.redisAvailable then
      if env.redisBigSetFails then
        (.raised ⟨.memoryErrorK, "Redis memory error: OOM"⟩, st)
      else
        (.resp 200 (.obj [("result", .jstr "Large value stored")]),
         { st with redis :=
             ⟨assocSet "large_key"
               (.rstr (String.mk (List.replicate (100 * 1024 * 1024) 'x')))
               st.redis.data⟩ })
    else
      (.raised ⟨.memoryErrorK,
                "Redis memory error simulation - Redis not available"⟩, st)
  else if error_type = "data_corruption" then
    if st.redisAvailable then
      -- the corrupted key is written, then json.loads on it fails
      (.raised ⟨.jsonDecodeError, "Expecting value: line 1 column 1"⟩,
       { st with redis :=
           ⟨assocSet "corrupted_user" (.rstr "invalid:json:data:structure")
             st.redis.data⟩ })
    else
      (.raised ⟨.valueError, "Data corruption detected in user data"⟩, st)
  else if error_type = "serialization_error" then
    -- pickle.dumps of an object holding an open file handle raises TypeError
    (.raised ⟨.typeErrorK, "cannot pickle a file object"⟩, st)
  else if error_type = "key_not_found" then
    if st.redisAvailable then
      match st.redis.data.lookup "critical_config_key" with
      | none =>
          (.raised ⟨.keyError,
            "Critical configuration key critical_config_key not found in database"⟩,
           st)
      | some (.rstr s) => (.resp 200 (.obj [("data", .jstr s)]), st)
      | some (.rhash _) =>
          -- GET on a hash-typed key raises WRONGTYPE
          (.raised ⟨.wrongTypeError,
                    "WRONGTYPE Operation against a key holding the wrong kind of value"⟩,
           st)
    else
      (.raised ⟨.keyError, "Critical key not found - Redis not available"⟩, st)
  else if error_type = "transaction_rollback" then
    if st.redisAvailable then
      -- pipe.multi(); pipe.set queues tx_key1 and tx_key2; the exception is
      -- raised before pipe.execute(), so pipe.reset() discards the queue and
      -- nothing reaches the store
      let queued : List (String × String) :=
        [("tx_key1", "value1"), ("tx_key2", "value2")]
      let _ := queued
      (.raised ⟨.runtimeError,
        "Transaction rolled back due to error: Transaction failed at step 2"⟩,
       st)
    else
      (.raised ⟨.runtimeError,
                "Transaction rollback simulation - Redis not available"⟩, st)
  else if error_type = "connection_pool_exhausted" then
    (.raised ⟨.connectionError,
              "Connection pool exhausted - all connections in use"⟩, st)
  else if error_type = "disk_full" then
    (.raised ⟨.osError,
              "No space left on device - cannot write to database"⟩, st)
  else if error_type = "permission_denied" then
    (.raised ⟨.permissionErrorK,
              "Permission denied - cannot access database files"⟩, st)
  else
    (.raised ⟨.valueError,
      "Unknown database error type: " ++ error_type
        ++ ". Use /database/errors/test to see available types."⟩, st)

/-- Route handler `test_database_errors` (`GET /database/errors/test`,
`src/applications/database/app.py` lines 221-244): an absent `type` query
parameter defaults to `list`, which enumerates the catalog; any other value
is dispatched to `trigger_database_error`. -/
def test_database_errors (typeParam : Option String) (env : Env)
    (st : DbState) : HResult × DbState :=
  let error_type := typeParam.getD "list"
  if error_type = "list" then
    (.resp 200 (.obj
      [("available_errors", .arr (db_error_names.map .jstr)),
       ("usage", .jstr "/database/errors/test?type=<error_type>"),
       ("example", .jstr "/database/errors/test?type=redis_connection_error")]),
     st)
  else
    trigger_database_error error_type env st

/-- Process state of the api service: the local `users` list (in append
order) and its `user_counter`. -/
structure ApiState where
  users : List JVal
  user_counter : Int
deriving Repr

/-- Outcome of the api service calling the database service over HTTP:
either an exception during the request (timeout, transport error), or a
response with a status code and, when `response.json()` parses, its JSON
body (`none` models a body that makes `response.json()` raise). -/
inductive Downstream where
  | failure
  | respD (status : Nat) (jsonBody : Option JVal)
deriving Repr

/-- Handler `get_users` of the api service (`GET /api/users`,
`src/applications/api/app.py` lines 33-59).  Everything downstream-related
is inside `try`, and any failure there — transport error, non-200 status
handled explicitly, JSON parse error, a body without `.get`, or a `users`
payload that is not a list (so that `users + ...` raises `TypeError`) —
degrades to the local list.  The `jsonify` at the end is outside `try`, so
the handler always returns a 200 response. -/
def api_get_users (d : Downstream) (st : ApiState) : HResult :=
  let all_users : List JVal :=
    match d with
    | .failure => st.users
    | .respD status jb =>
        if status = 200 then
          match jb with
          | none => st.users
          | some j =>
              match j with
              | .jobj fs =>
                  match (fs.lookup "users").getD (.arr []) with
                  | .jarr l => st.users ++ l.toList
                  | _ => st.users
              | _ => st.users
        else st.users
  .resp 200 (.obj [("users", .arr all_users),
                   ("count", .jint all_users.length),
                   ("source", .jstr "api-service")])

/-- Handler `create_user` of the api service (`POST /api/users`,
`src/applications/api/app.py` lines 61-96).  The `name` guard is the same
as the database service's; the record construction is not inside a `try`,
so `data['name']` on a truthy non-dict raises a `TypeError` that escapes
the handler with nothing stored.  The best-effort mirror write to the
database service is inside its own `try` with every failure logged and
ignored, so it affects neither the response nor the local state and is not
modelled. -/
def api_create_user (body : Option JVal) (now : Int) (st : ApiState) :
    HResult × ApiState :=
  match body with
  | none => (.resp 400 (.obj [("error", .jstr "Name is required")]), st)
  | some data =>
    if !pyTruthy data then
      (.resp 400 (.obj [("error", .jstr "Name is required")]), st)
    else
      match pyContains "name" data with
      | .typeErr =>
          (.raised ⟨.typeErrorK, "argument of type is not iterable"⟩, st)
      | .no => (.resp 400 (.obj [("error", .jstr "Name is required")]), st)
      | .yes =>
        match data with
        | .jobj fs =>
          let user : JVal :=
            .obj [("id", .jint st.user_counter),
                  ("name", (fs.lookup "name").getD .jnull),
                  ("email", (fs.lookup "email").getD (.jstr "")),
                  ("created_at", .jint now)]
          (.resp 201 user,
           { users := st.users ++ [user],
             user_counter := st.user_counter + 1 })
        | _ =>
            (.raised ⟨.typeErrorK, "indices must be integers"⟩, st)

/-- Scenario names enumerated by `GET /api/errors/test` in list mode
(`src/applications/api/app.py` lines 146-159). -/
def api_error_names : List String :=
  ["division_by_zero", "null_pointer", "index_out_of_bounds", "type_error",
   "infinite_loop", "memory_error", "file_not_found", "json_decode_error",
   "network_timeout", "database_error", "validation_error",
   "custom_exception", "async_error"]

/-- Fault dispatcher `trigger_specific_error` of the api service
(`src/applications/api/app.py` lines 167-294), an `if/elif` chain on the
scenario name ending in a `ValueError` for unrecognized names.  None of the
branches touches the api service state.  The `infinite_loop` branch breaks
out of its loop at the one-million-iteration safety net, far inside the two
second alarm, and so returns a normal 200 response. -/
def trigger_specific_error (error_type : String) (env : Env) : HResult :=
  if error_type = "division_by_zero" then
    .raised ⟨.zeroDivisionError, "division by zero"⟩
  else if error_type = "null_pointer" then
    .raised ⟨.attributeError, "NoneType object has no attribute get"⟩
  else if error_type = "index_out_of_bounds" then
    .raised ⟨.indexError, "list index out of range"⟩
  else if error_type = "type_error" then
    .raised ⟨.valueError, "invalid literal for int with base 10: not_a_number"⟩
  else if error_type = "infinite_loop" then
    .resp 200 (.obj [("error", .jstr "Infinite loop detected and stopped")])
  else if error_type = "memory_error" then
    if env.memAllocFails then
      .raised ⟨.memoryErrorK, "Failed to allocate memory"⟩
    else
      .resp 200 (.obj [("result", .jstr "Memory allocated successfully")])
  else if error_type = "file_not_found" then
    .raised ⟨.fileNotFoundError,
             "No such file or directory: /nonexistent/path/file.txt"⟩
  else if error_type = "json_decode_error" then
    .raised ⟨.jsonDecodeError, "Expecting value: line 1 column 13"⟩
  else if error_type = "network_timeout" then
    if env.httpbinReachable then
      -- delay/10 outlasts the 1 second timeout; the Timeout is re-raised
      .raised ⟨.timeoutErrorK, "Network request timed out"⟩
    else
      -- an unreachable host raises ConnectionError, which the branch does
      -- not catch
      .raised ⟨.connectionError, "Failed to establish a new connection"⟩
  else if error_type = "database_error" then
    -- sqlite3.connect on a nonexistent directory raises OperationalError,
    -- caught and re-raised as a plain Exception
    .raised ⟨.genericException,
             "Database operation failed: unable to open database file"⟩
  else if error_type = "validation_error" then
    .raised ⟨.valueError, "Invalid age: -5. Age must be positive."⟩
  else if error_type = "custom_exception" then
    .raised ⟨.customApplicationError,
             "This is a custom application error for testing"⟩
  else if error_type = "async_error" then
    .raised ⟨.runtimeError, "Async operation failed in background thread"⟩
  else
    .raised ⟨.valueError,
      "Unknown error type: " ++ error_type
        ++ ". Use /api/errors/test to see available types."⟩

/-- Route handler `test_errors` (`GET /api/errors/test`,
`src/applications/api/app.py` lines 139-165). -/
def api_test_errors (typeParam : Option String) (env : Env) : HResult :=
  let error_type := typeParam.getD "list"
  if error_type = "list" then
    .resp 200 (.obj
      [("available_errors", .arr (api_error_names.map .jstr)),
       ("usage", .jstr "/api/errors/test?type=<error_type>"),
       ("example", .jstr "/api/errors/test?type=division_by_zero")])
  else
    trigger_specific_error error_type env

/-- One state-changing operation on the database service's storage (the
fault-catalog claims about the fallback store quantify over sequences of
creates and deletes). -/
inductive DbOp where
  | createOp (body : Option JVal) (now : Int)
  | deleteOp (user_id : Nat)

/-- State left behind by one operation. -/
def dbStep (op : DbOp) (st : DbState) : DbState :=
  match op with
  | .createOp body now => (db_create_user body now st).2
  | .deleteOp uid => (db_delete_user uid st).2

/-- Ghost observation of `db_create_user`: the dict key the call inserts
into `memory_users`, when it inserts one (mirrors the handler's guard and
branch structure; used only to phrase history-based invariants). -/
def createdKey (body : Option JVal) (st : DbState) : Option JVal :=
  match body with
  | none => none
  | some data =>
    if !pyTruthy data then none
    else
      match pyContains "name" data with
      | .yes =>
        match data with
        | .jobj fs =>
          if st.redisAvailable then none
          else
            let uid := (fs.lookup "id").getD (.jint st.memory_counter)
            if pyHashable uid then some uid else none
        | _ => none
      | _ => none

/-- Replay of a sequence of operations, collecting the history of dict keys
ever inserted into the fallback store (deletions do not erase history). -/
def runDbHist : List DbOp → DbState → List JVal → DbState × List JVal
  | [], st, hist => (st, hist)
  | op :: rest, st, hist =>
      let hist' := match op with
        | .createOp body _ =>
            match createdKey body st with
            | some k => hist ++ [k]
            | none => hist
        | .deleteOp _ => hist
      runDbHist rest (dbStep op st) hist'

/-- Fresh database-service state in fallback mode, as after a startup whose
Redis probe failed: empty dict, counter 1. -/
def initMemState : DbState := ⟨false, ⟨[]⟩, [], 1⟩

/-! Helper lemmas about the association-list operations. -/

theorem assocSet_lookup_self {κ α : Type} [DecidableEq κ] (k : κ) (v : α) :
    ∀ l : List (κ × α), (assocSet k v l).lookup k = some v := by
  intro l
  induction l with
  | nil => simp [assocSet, List.lookup]
  | cons hd tl ih =>
      obtain ⟨k', v'⟩ := hd
      by_cases hk : k' = k
      · subst hk
        simp [assocSet, List.lookup]
      · have hbk : (k == k') = false := by
          rw [beq_eq_false_iff_ne]
          exact fun h => hk h.symm
        simp [assocSet, hk, List.lookup, hbk, ih]

theorem assocRemove_lookup_self {κ α : Type} [DecidableEq κ] (k : κ) :
    ∀ l : List (κ × α), (assocRemove k l).lookup k = none := by
  intro l
  induction l with
  | nil => simp [assocRemove, List.lookup]
  | cons hd tl ih =>
      obtain ⟨k', v'⟩ := hd
      by_cases hk : k' = k
      · simpa [assocRemove, hk] using ih
      · have hbk : (k == k') = false := by
          rw [beq_eq_false_iff_ne]
          exact fun h => hk h.symm
        simpa [assocRemove, hk, List.lookup, hbk] using ih

theorem assocRemove_subset {κ α : Type} [DecidableEq κ] (k : κ) :
    ∀ (l : List (κ × α)) (kv : κ × α), kv ∈ assocRemove k l → kv ∈ l := by
  intro l
  induction l with
  | nil => intro kv h; simp [assocRemove] at h
  | cons hd tl ih =>
      intro kv h
      obtain ⟨k', v'⟩ := hd
      by_cases hk : k' = k
      · simp only [assocRemove, if_pos hk] at h
        exact List.mem_cons_of_mem _ (ih kv h)
      · simp only [assocRemove, if_neg hk] at h
        rcases List.mem_cons.mp h with h' | h'
        · exact h' ▸ List.mem_cons_self _ _
        · exact List.mem_cons_of_mem _ (ih kv h')

theorem assocSet_mem {κ α : Type} [DecidableEq κ] (k : κ) (v : α) :
    ∀ (l : List (κ × α)) (kv : κ × α),
      kv ∈ assocSet k v l → kv ∈ l ∨ kv.1 = k := by
  intro l
  induction l with
  | nil =>
      intro kv h
      simp [assocSet] at h
      subst h
      simp
  | cons hd tl ih =>
      intro kv h
      obtain ⟨k', v'⟩ := hd
      by_cases hk : k' = k
      · subst hk
        simp [assocSet] at h
        rcases h with h | h
        · subst h; right; rfl
        · left; exact List.mem_cons_of_mem _ h
      · simp [assocSet, hk] at h
        rcases h with h | h
        · left; subst h; exact List.mem_cons_self _ _
        · rcases ih kv h with h' | h'
          · left; exact List.mem_cons_of_mem _ h'
          · right; exact h'

theorem assocSet_append {κ α : Type} [DecidableEq κ] (k : κ) (v : α) :
    ∀ l : List (κ × α), (∀ kv ∈ l, kv.1 ≠ k) →
      assocSet k v l = l ++ [(k, v)] := by
  intro l
  induction l with
  | nil => intro _; simp [assocSet]
  | cons hd tl ih =>
      intro h
      obtain ⟨k', v'⟩ := hd
      have hk : k' ≠ k := h (k', v') (List.mem_cons_self _ _)
      simp [assocSet, hk]
      exact ih fun kv hkv => h kv (List.mem_cons_of_mem _ hkv)

/-- A successful field lookup means the object is a nonempty (truthy) dict. -/
theorem lookup_isSome_not_isNil {fs : JFields} {k : String}
    (h : (fs.lookup k).isSome) : fs.isNil = false := by
  cases fs with
  | nil => simp [JFields.lookup] at h
  | cons _ _ _ => rfl

/-! Step lemmas for the fallback-store invariant. -/

/-- Effect of one `create_user` call on the fallback store, relative to the
ghost `createdKey`: the mode flag is untouched, the counter never
decreases, every record of the new dict is an old record or sits under the
created key, and a created integer id ends up strictly below the new
counter. -/
theorem create_step_inv (body : Option JVal) (now : Int) (st : DbState)
    (h : st.redisAvailable = false) :
    (db_create_user body now st).2.redisAvailable = false ∧
    st.memory_counter ≤ (db_create_user body now st).2.memory_counter ∧
    (∀ kv ∈ (db_create_user body now st).2.memory_users,
        kv ∈ st.memory_users ∨ createdKey body st = some kv.1) ∧
    (∀ m : Int, createdKey body st = some (.jint m) →
        m < (db_create_user body now st).2.memory_counter) := by
  cases body with
  | none => simp [db_create_user, createdKey, h]
  | some data =>
    by_cases ht : pyTruthy data
    · cases hc : pyContains "name" data with
      | typeErr => simp [db_create_user, createdKey, ht, hc, h]
      | no => simp [db_create_user, createdKey, ht, hc, h]
      | yes =>
        cases data with
        | jobj fs =>
          cases hid : (fs.lookup "id").getD (.jint st.memory_counter) with
          | jint m =>
              simp [db_create_user, createdKey, ht, hc, h, hid,
                    pyHashable, pyMaxCounter]
              refine ⟨le_trans le_sup_left (by linarith), ?_,
                      lt_of_le_of_lt le_sup_right (by linarith)⟩
              intro a b hab
              rcases assocSet_mem _ _ _ _ hab with h' | h'
              · exact Or.inl h'
              · exact Or.inr h'.symm
          | jbool b =>
              simp [db_create_user, createdKey, ht, hc, h, hid,
                    pyHashable, pyMaxCounter]
              refine ⟨le_trans le_sup_left (by linarith), ?_⟩
              intro a b hab
              rcases assocSet_mem _ _ _ _ hab with h' | h'
              · exact Or.inl h'
              · exact Or.inr h'.symm
          | jnull =>
              simp [db_create_user, createdKey, ht, hc, h, hid,
                    pyHashable, pyMaxCounter]
              intro a b hab
              rcases assocSet_mem _ _ _ _ hab with h' | h'
              · exact Or.inl h'
              · exact Or.inr h'.symm
          | jstr s =>
              simp [db_create_user, createdKey, ht, hc, h, hid,
                    pyHashable, pyMaxCounter]
              intro a b hab
              rcases assocSet_mem _ _ _ _ hab with h' | h'
              · exact Or.inl h'
              · exact Or.inr h'.symm
          | jarr l =>
              simp [db_create_user, createdKey, ht, hc, h, hid, pyHashable]
          | jobj fs' =>
              simp [db_create_user, createdKey, ht, hc, h, hid, pyHashable]
        | jnull => simp [pyContains] at hc
        | jbool b => simp [pyContains] at hc
        | jint n => simp [pyContains] at hc
        | jstr s => simp [db_create_user, createdKey, ht, hc, h]
        | jarr l => simp [db_create_user, createdKey, ht, hc, h]
    · simp [db_create_user, createdKey, ht, h]

/-- Effect of one `delete_user` call on the fallback store: the mode flag
and counter are untouched and the dict only loses records. -/
theorem delete_step_inv (uid : Nat) (st : DbState)
    (h : st.redisAvailable = false) :
    (db_delete_user uid st).2.redisAvailable = false ∧
    (db_delete_user uid st).2.memory_counter = st.memory_counter ∧
    (∀ kv ∈ (db_delete_user uid st).2.memory_users, kv ∈ st.memory_users) := by
  cases hl : st.memory_users.lookup (.jint (uid : Int)) with
  | none => simp [db_delete_user, h, hl]
  | some u =>
      simp [db_delete_user, h, hl]
      intro a b hab
      exact assocRemove_subset _ _ _ hab

/-- Invariant of the replayed fallback store: in fallback mode, every
integer id ever inserted stays strictly below the counter, and every key
currently in the dict appears in the insertion history. -/
theorem runDbHist_inv (ops : List DbOp) (st : DbState) (hist : List JVal)
    (h : st.redisAvailable = false)
    (hctr : ∀ n : Int, (JVal.jint n) ∈ hist → n < st.memory_counter)
    (hkeys : ∀ kv ∈ st.memory_users, kv.1 ∈ hist) :
    (runDbHist ops st hist).1.redisAvailable = false ∧
    (∀ n : Int, (JVal.jint n) ∈ (runDbHist ops st hist).2 →
        n < (runDbHist ops st hist).1.memory_counter) ∧
    (∀ kv ∈ (runDbHist ops st hist).1.memory_users,
        kv.1 ∈ (runDbHist ops st hist).2) := by
  induction ops generalizing st hist with
  | nil => exact ⟨h, hctr, hkeys⟩
  | cons op rest ih =>
    cases op with
    | createOp body now =>
      obtain ⟨h1, h2, h3, h4⟩ := create_step_inv body now st h
      cases hck : createdKey body st with
      | none =>
          simp only [runDbHist, hck]
          refine ih (dbStep (.createOp body now) st) hist h1 ?_ ?_
          · intro n hn
            exact lt_of_lt_of_le (hctr n hn) h2
          · intro kv hkv
            rcases h3 kv hkv with h' | h'
            · exact hkeys kv h'
            · rw [hck] at h'
              cases h'
      | some k =>
          simp only [runDbHist, hck]
          refine ih (dbStep (.createOp body now) st) (hist ++ [k]) h1 ?_ ?_
          · intro n hn
            rcases List.mem_append.mp hn with h' | h'
            · exact lt_of_lt_of_le (hctr n h') h2
            · have hk : k = JVal.jint n := by
                have := List.mem_singleton.mp h'
                exact this.symm
              subst hk
              exact h4 n hck
          · intro kv hkv
            rcases h3 kv hkv with h' | h'
            · exact List.mem_append_left _ (hkeys kv h')
            · rw [hck] at h'
              have hkk : kv.1 = k := by
                injection h' with h''
                exact h''.symm
              rw [hkk]
              exact List.mem_append_right _ (by simp)
    | deleteOp uid =>
      obtain ⟨h1, h2, h3⟩ := delete_step_inv uid st h
      simp only [runDbHist]
      refine ih (dbStep (.deleteOp uid) st) hist h1 ?_ ?_
      · intro n hn
        rw [show (dbStep (.deleteOp uid) st).memory_counter
              = st.memory_counter from h2]
        exact hctr n hn
      · intro kv hkv
        exact hkeys kv (h3 kv hkv)

/-! Claim theorems. -/

/-- C9: in every successful list response of either service — the
aggregator's merged listing and the downstream storage listing — the count
field equals the length of the users list returned in the same response
(the database listing either succeeds in this shape or returns its 500
fetch-failure body). -/
theorem C9_count_matches_users_length :
    (∀ (d : Downstream) (st : ApiState), ∃ us : List JVal,
        api_get_users d st
          = .resp 200 (.obj [("users", .arr us),
                             ("count", .jint us.length),
                             ("source", .jstr "api-service")])) ∧
    (∀ st : DbState,
        (∃ us : List JVal, ∃ stor : String,
            db_get_users st
              = .resp 200 (.obj [("users", .arr us),
                                 ("count", .jint us.length),
                                 ("source", .jstr "database-service"),
                                 ("storage", .jstr stor)])) ∨
        db_get_users st
          = .resp 500 (.obj [("error", .jstr "Failed to fetch users")])) := by
  constructor
  · intro d st
    exact ⟨_, rfl⟩
  · intro st
    by_cases hr : st.redisAvailable
    · cases hcu : collectUsers
          (st.redis.data.filter (fun kv => kv.1.startsWith "user:")) with
      | none =>
          right
          simp [db_get_users, hr, hcu]
      | some us =>
          left
          exact ⟨us, "redis", by simp [db_get_users, hr, hcu]⟩
    · left
      exact ⟨st.memory_users.map (fun kv => kv.2), "memory",
             by simp [db_get_users, hr]⟩

/-- C4: the aggregator listing never fails due to downstream
unavailability: a transport failure or a non-200 downstream status still
yields a 200 response holding exactly the locally held records, and a 200
downstream response carrying a users list yields the union (concatenation)
of local and downstream records, again as a 200. -/
theorem C4_aggregator_degrades :
    (∀ st : ApiState,
        api_get_users .failure st
          = .resp 200 (.obj [("users", .arr st.users),
                             ("count", .jint st.users.length),
                             ("source", .jstr "api-service")])) ∧
    (∀ (st : ApiState) (s : Nat) (jb : Option JVal), s ≠ 200 →
        api_get_users (.respD s jb) st
          = .resp 200 (.obj [("users", .arr st.users),
                             ("count", .jint st.users.length),
                             ("source", .jstr "api-service")])) ∧
    (∀ (st : ApiState) (fs : JFields) (l : JList),
        fs.lookup "users" = some (.jarr l) →
        api_get_users (.respD 200 (some (.jobj fs))) st
          = .resp 200 (.obj
              [("users", .arr (st.users ++ l.toList)),
               ("count", .jint (st.users ++ l.toList).length),
               ("source", .jstr "api-service")])) := by
  refine ⟨fun st => rfl, fun st s jb hs => ?_, fun st fs l hfs => ?_⟩
  · simp [api_get_users, hs]
  · simp [api_get_users, hfs]

/-- C4 witness: a concrete downstream 503 degrades to the local-only
listing, and a concrete downstream 200 with one record merges it. -/
theorem C4_aggregator_degrades_witness :
    api_get_users (.respD 503 none) ⟨[.obj [("id", .jint 1)]], 2⟩
      = .resp 200 (.obj [("users", .arr [.obj [("id", .jint 1)]]),
                         ("count", .jint 1),
                         ("source", .jstr "api-service")]) ∧
    api_get_users
        (.respD 200 (some (.obj [("users", .arr [.obj [("id", .jint 7)]])])))
        ⟨[], 1⟩
      = .resp 200 (.obj [("users", .arr [.obj [("id", .jint 7)]]),
                         ("count", .jint 1),
                         ("source", .jstr "api-service")]) :=
  ⟨C4_aggregator_degrades.2.1 ⟨[.obj [("id", .jint 1)]], 2⟩ 503 none
      (by decide),
   C4_aggregator_degrades.2.2 ⟨[], 1⟩
      (JFields.ofList [("users", .arr [.obj [("id", .jint 7)]])])
      (JList.ofList [.obj [("id", .jint 7)]]) rfl⟩

/-- C8: triggering `transaction_rollback` with the external store available
always raises the rollback fault and leaves the store untouched — the
pipeline commands are queued but never executed, so neither transaction key
is ever stored. -/
theorem C8_transaction_rollback_atomic (st : DbState) (env : Env)
    (h : st.redisAvailable = true) :
    trigger_database_error "transaction_rollback" env st
      = (.raised ⟨.runtimeError,
          "Transaction rolled back due to error: Transaction failed at step 2"⟩,
         st) := by
  simp [trigger_database_error, h]

/-- C8 witness: the rollback scenario on a concrete redis-backed state. -/
theorem C8_transaction_rollback_atomic_witness :
    trigger_database_error "transaction_rollback" ⟨false, false, false⟩
        ⟨true, ⟨[]⟩, [], 1⟩
      = (.raised ⟨.runtimeError,
          "Transaction rolled back due to error: Transaction failed at step 2"⟩,
         ⟨true, ⟨[]⟩, [], 1⟩) :=
  C8_transaction_rollback_atomic ⟨true, ⟨[]⟩, [], 1⟩ ⟨false, false, false⟩ rfl

/-- C1 counterexample: a request with an unrecognized scenario name is
reported with HTTP status 500 — the UnknownScenario `ValueError` escapes to
the framework's fault boundary — not as a 400 response as claimed. -/
theorem C1_counterexample_unknown_name_is_500_not_400 :
    flaskStatus (test_database_errors (some "unknown_name")
        ⟨false, false, false⟩ initMemState).1 = 500 ∧
    flaskStatus (test_database_errors (some "unknown_name")
        ⟨false, false, false⟩ initMemState).1 ≠ 400 ∧
    flaskStatus (api_test_errors (some "unknown_name")
        ⟨false, false, false⟩) = 500 ∧
    flaskStatus (api_test_errors (some "unknown_name")
        ⟨false, false, false⟩) ≠ 400 := by
  refine ⟨rfl, by decide, rfl, by decide⟩

/-- C1 (amended): on either service, a fault-trigger request whose scenario
name is not in the catalog (and is not the `list` listing mode) always
raises the UnknownScenario `ValueError` naming the unknown type — never a
silent no-op, never an unrelated fault, and the state is untouched; the
framework reports it as a 500. -/
theorem C1_unknown_scenario_rejected (name : String) (env : Env)
    (st : DbState)
    (hdb : name ∉ db_error_names) (hapi : name ∉ api_error_names)
    (hlist : name ≠ "list") :
    test_database_errors (some name) env st
      = (.raised ⟨.valueError,
          "Unknown database error type: " ++ name
            ++ ". Use /database/errors/test to see available types."⟩, st) ∧
    api_test_errors (some name) env
      = .raised ⟨.valueError,
          "Unknown error type: " ++ name
            ++ ". Use /api/errors/test to see available types."⟩ ∧
    flaskStatus (test_database_errors (some name) env st).1 = 500 ∧
    flaskStatus (api_test_errors (some name) env) = 500 := by
  simp only [db_error_names, List.mem_cons, List.mem_singleton,
    List.not_mem_nil, or_false, not_or] at hdb
  obtain ⟨d1, d2, d3, d4, d5, d6, d7, d8, d9, d10⟩ := hdb
  simp only [api_error_names, List.mem_cons, List.mem_singleton,
    List.not_mem_nil, or_false, not_or] at hapi
  obtain ⟨a1, a2, a3, a4, a5, a6, a7, a8, a9, a10, a11, a12, a13⟩ := hapi
  have hdbeq : test_database_errors (some name) env st
      = (.raised ⟨.valueError,
          "Unknown database error type: " ++ name
            ++ ". Use /database/errors/test to see available types."⟩, st) := by
    simp [test_database_errors, trigger_database_error, hlist,
          d1, d2, d3, d4, d5, d6, d7, d8, d9, d10]
  have hapieq : api_test_errors (some name) env
      = .raised ⟨.valueError,
          "Unknown error type: " ++ name
            ++ ". Use /api/errors/test to see available types."⟩ := by
    simp [api_test_errors, trigger_specific_error, hlist,
          a1, a2, a3, a4, a5, a6, a7, a8, a9, a10, a11, a12, a13]
  refine ⟨hdbeq, hapieq, ?_, ?_⟩
  · rw [hdbeq]
    rfl
  · rw [hapieq]
    rfl

/-- C1 witness: the unknown-scenario theorem applied to a concrete
unrecognized name. -/
theorem C1_unknown_scenario_rejected_witness :
    test_database_errors (some "unknown_name") ⟨false, false, false⟩
        initMemState
      = (.raised ⟨.valueError,
          "Unknown database error type: unknown_name. Use /database/errors/test to see available types."⟩,
         initMemState) ∧
    api_test_errors (some "unknown_name") ⟨false, false, false⟩
      = .raised ⟨.valueError,
          "Unknown error type: unknown_name. Use /api/errors/test to see available types."⟩ := by
  have h := C1_unknown_scenario_rejected "unknown_name" ⟨false, false, false⟩
    initMemState (by decide) (by decide) (by decide)
  exact ⟨h.1, h.2.1⟩

/-- C2 counterexample: a create body whose name field is the empty string
is accepted with 201 and stored, not rejected with 400 — the guard only
checks key presence. -/
theorem C2_counterexample_empty_name_accepted :
    (db_create_user (some (.obj [("name", .jstr "")])) 7 initMemState).1
      = .resp 201 (.obj [("user", .obj [("id", .jint 1),
                                        ("name", .jstr ""),
                                        ("email", .jstr ""),
                                        ("created_at", .jint 7)]),
                         ("storage", .jstr "memory")]) ∧
    (db_create_user (some (.obj [("name", .jstr "")])) 7
        initMemState).2.memory_users
      = [(.jint 1, .obj [("id", .jint 1), ("name", .jstr ""),
                         ("email", .jstr ""), ("created_at", .jint 7)])] ∧
    (api_create_user (some (.obj [("name", .jstr "")])) 7 ⟨[], 1⟩).1
      = .resp 201 (.obj [("id", .jint 1), ("name", .jstr ""),
                         ("email", .jstr ""), ("created_at", .jint 7)]) :=
  ⟨rfl, rfl, rfl⟩

/-- C2 (amended): on both services, a create whose object body has no name
key fails with the 400 validation error and stores nothing; an object body
that does carry a name key — the empty string included — is accepted with
201 (on the database service in fallback mode, provided the id it carries,
if any, is an integer; other bodies hit the storage-failure branch
instead). -/
theorem C2_name_validation (fs : JFields) (now : Int) (st : DbState)
    (ast : ApiState) :
    (fs.lookup "name" = none →
        db_create_user (some (.jobj fs)) now st
          = (.resp 400 (.obj [("error", .jstr "Name is required")]), st) ∧
        api_create_user (some (.jobj fs)) now ast
          = (.resp 400 (.obj [("error", .jstr "Name is required")]), ast)) ∧
    ((fs.lookup "name").isSome →
        (∀ n : Int,
            (fs.lookup "id").getD (.jint st.memory_counter) = .jint n →
            st.redisAvailable = false →
            (db_create_user (some (.jobj fs)) now st).1
              = .resp 201 (.obj
                  [("user", .obj
                      [("id", .jint n),
                       ("name", (fs.lookup "name").getD .jnull),
                       ("email", (fs.lookup "email").getD (.jstr "")),
                       ("created_at",
                          (fs.lookup "created_at").getD (.jint now))]),
                   ("storage", .jstr "memory")])) ∧
        (api_create_user (some (.jobj fs)) now ast).1
          = .resp 201 (.obj
              [("id", .jint ast.user_counter),
               ("name", (fs.lookup "name").getD .jnull),
               ("email", (fs.lookup "email").getD (.jstr "")),
               ("created_at", .jint now)])) := by
  constructor
  · intro hnone
    cases fs with
    | nil => exact ⟨rfl, rfl⟩
    | cons k v t =>
        have hc : pyContains "name" (.jobj (.cons k v t)) = .no := by
          simp [pyContains, hnone]
        constructor
        · simp [db_create_user, pyTruthy, JFields.isNil, hc]
        · simp [api_create_user, pyTruthy, JFields.isNil, hc]
  · intro hsome
    have hfs : fs.isNil = false := lookup_isSome_not_isNil hsome
    have ht : pyTruthy (.jobj fs) = true := by simp [pyTruthy, hfs]
    have hc : pyContains "name" (.jobj fs) = .yes := by
      simp [pyContains, hsome]
    constructor
    · intro n hid hred
      simp [db_create_user, ht, hc, hred, hid, pyHashable, pyMaxCounter]
    · simp [api_create_user, ht, hc]

/-- C2 witness: the validation theorem applied to a concrete body with no
name key, and to a concrete body carrying an empty name. -/
theorem C2_name_validation_witness :
    db_create_user (some (.obj [("email", .jstr "x")])) 0 initMemState
      = (.resp 400 (.obj [("error", .jstr "Name is required")]),
         initMemState) ∧
    (db_create_user (some (.obj [("name", .jstr ""), ("email", .jstr "e")]))
        4 initMemState).1
      = .resp 201 (.obj [("user", .obj [("id", .jint 1),
                                        ("name", .jstr ""),
                                        ("email", .jstr "e"),
                                        ("created_at", .jint 4)]),
                         ("storage", .jstr "memory")]) := by
  constructor
  · exact (C2_name_validation (JFields.ofList [("email", .jstr "x")]) 0
      initMemState ⟨[], 1⟩).1 rfl |>.1
  · exact (C2_name_validation
      (JFields.ofList [("name", .jstr ""), ("email", .jstr "e")]) 4
      initMemState ⟨[], 1⟩).2 (by decide) |>.1 1 rfl rfl

/-- C7: on the Storage Facade, `get(id)` right after `delete(id)` always
fails with the NotFound 404 (whatever the delete returned and in either
storage mode), and `delete(id)` on an absent id fails with the NotFound 404
leaving the state unchanged. -/
theorem C7_delete_get_not_found (st : DbState) (uid : Nat) :
    db_get_user uid (db_delete_user uid st).2
      = .resp 404 (.obj [("error", .jstr "User not found")]) ∧
    (st.redisAvailable = true →
        st.redis.data.lookup (userKey (.jint (uid : Int))) = none →
        db_delete_user uid st
          = (.resp 404 (.obj [("error", .jstr "User not found")]), st)) ∧
    (st.redisAvailable = false →
        st.memory_users.lookup (.jint (uid : Int)) = none →
        db_delete_user uid st
          = (.resp 404 (.obj [("error", .jstr "User not found")]), st)) := by
  refine ⟨?_, ?_, ?_⟩
  · by_cases hr : st.redisAvailable
    · cases hl : st.redis.data.lookup (userKey (.jint (uid : Int))) with
      | none => simp [db_delete_user, db_get_user, hr, hl]
      | some v =>
          simp [db_delete_user, db_get_user, hr, hl,
                assocRemove_lookup_self]
    · cases hl : st.memory_users.lookup (.jint (uid : Int)) with
      | none => simp [db_delete_user, db_get_user, hr, hl]
      | some v =>
          simp [db_delete_user, db_get_user, hr, hl,
                assocRemove_lookup_self]
  · intro hr hl
    simp [db_delete_user, hr, hl]
  · intro hr hl
    simp [db_delete_user, hr, hl]

/-- C7 witness: deleting id 1 on a fresh fallback store reports NotFound
and leaves the store unchanged, and the subsequent get reports NotFound. -/
theorem C7_delete_get_not_found_witness :
    db_get_user 1 (db_delete_user 1 initMemState).2
      = .resp 404 (.obj [("error", .jstr "User not found")]) ∧
    db_delete_user 1 initMemState
      = (.resp 404 (.obj [("error", .jstr "User not found")]),
         initMemState) :=
  ⟨(C7_delete_get_not_found initMemState 1).1,
   (C7_delete_get_not_found initMemState 1).2.2 rfl rfl⟩

/-- C10 counterexample: in fallback mode the 500 branch of `create_user` is
reachable — a JSON array body containing the string name passes the guard
(`in` is element membership on lists) and then `data.get` raises inside the
`try` block, producing the 500 create-failure response. -/
theorem C10_counterexample_create_500_reachable :
    db_create_user (some (.arr [.jstr "name"])) 0 initMemState
      = (.resp 500 (.obj [("error", .jstr "Failed to create user")]),
         initMemState) := rfl

/-- C10 (amended): in fallback mode, list, get and delete never return the
500 storage-failure response; create never returns it either when the
request body is a JSON object whose caller-supplied id, if any, is an
integer (other bodies can reach the 500 branch). -/
theorem C10_fallback_no_500 (st : DbState)
    (h : st.redisAvailable = false) :
    (∀ b : JVal, db_get_users st ≠ .resp 500 b) ∧
    (∀ (uid : Nat) (b : JVal), db_get_user uid st ≠ .resp 500 b) ∧
    (∀ (uid : Nat) (b : JVal), (db_delete_user uid st).1 ≠ .resp 500 b) ∧
    (∀ (fs : JFields) (now n : Int) (b : JVal),
        (fs.lookup "id").getD (.jint st.memory_counter) = .jint n →
        (db_create_user (some (.jobj fs)) now st).1 ≠ .resp 500 b) := by
  refine ⟨?_, ?_, ?_, ?_⟩
  · intro b
    simp [db_get_users, h]
  · intro uid b
    cases hl : st.memory_users.lookup (.jint (uid : Int)) with
    | none => simp [db_get_user, h, hl]
    | some u =>
        by_cases htr : pyTruthy u
        · simp [db_get_user, h, hl, htr]
        · simp [db_get_user, h, hl, htr]
  · intro uid b
    cases hl : st.memory_users.lookup (.jint (uid : Int)) with
    | none => simp [db_delete_user, h, hl]
    | some u => simp [db_delete_user, h, hl]
  · intro fs now n b hid
    by_cases ht : pyTruthy (.jobj fs)
    · cases hc : pyContains "name" (.jobj fs) with
      | typeErr =>
          simp only [pyContains] at hc
          split at hc <;> cases hc
      | no => simp [db_create_user, ht, hc]
      | yes =>
          simp [db_create_user, ht, hc, h, hid, pyHashable, pyMaxCounter]
    · simp [db_create_user, ht]

/-- C10 witness: the no-500 theorem applied on a concrete fallback state
holding one record. -/
theorem C10_fallback_no_500_witness :
    db_get_users ⟨false, ⟨[]⟩, [(.jint 1, .obj [("id", .jint 1)])], 2⟩
      ≠ .resp 500 (.obj [("error", .jstr "Failed to fetch users")]) ∧
    (db_create_user (some (.obj [("name", .jstr "Ada")])) 9
        ⟨false, ⟨[]⟩, [(.jint 1, .obj [("id", .jint 1)])], 2⟩).1
      ≠ .resp 500 (.obj [("error", .jstr "Failed to create user")]) :=
  ⟨(C10_fallback_no_500 ⟨false, ⟨[]⟩, [(.jint 1, .obj [("id", .jint 1)])], 2⟩
      rfl).1 _,
   (C10_fallback_no_500 ⟨false, ⟨[]⟩, [(.jint 1, .obj [("id", .jint 1)])], 2⟩
      rfl).2.2.2 (JFields.ofList [("name", .jstr "Ada")]) 9 2 _ rfl⟩

/-- C3: a valid create on the storage facade — name a nonempty string,
email and created-at of the expected types, id (caller-supplied or the
counter default) a nonnegative integer — returns the stored record in its
201 body, and an immediately subsequent get with that id succeeds with an
equal record, in either storage mode. -/
theorem C3_create_then_get (st : DbState) (fs : JFields) (now : Int)
    (nm em : String) (ct uid : Int)
    (hname : fs.lookup "name" = some (.jstr nm)) (hnm : nm ≠ "")
    (hemail : (fs.lookup "email").getD (.jstr "") = .jstr em)
    (hct : (fs.lookup "created_at").getD (.jint now) = .jint ct)
    (hid : (fs.lookup "id").getD (.jint st.memory_counter) = .jint uid)
    (huid : 0 ≤ uid) :
    (db_create_user (some (.jobj fs)) now st).1
      = .resp 201 (.obj
          [("user", .obj [("id", .jint uid), ("name", .jstr nm),
                          ("email", .jstr em), ("created_at", .jint ct)]),
           ("storage",
              .jstr (if st.redisAvailable then "redis" else "memory"))]) ∧
    db_get_user uid.toNat (db_create_user (some (.jobj fs)) now st).2
      = .resp 200 (.obj
          [("user", .obj [("id", .jint uid), ("name", .jstr nm),
                          ("email", .jstr em), ("created_at", .jint ct)]),
           ("storage",
              .jstr (if st.redisAvailable then "redis" else "memory"))]) := by
  have hnat : ((uid.toNat : Nat) : Int) = uid := Int.toNat_of_nonneg huid
  cases fs with
  | nil =>
      rw [show JFields.lookup "name" JFields.nil = none from rfl] at hname
      cases hname
  | cons k0 v0 t0 =>
      have hsome : (JFields.lookup "name" (.cons k0 v0 t0)).isSome := by
        rw [hname]; rfl
      have hc : pyContains "name" (.jobj (.cons k0 v0 t0)) = .yes := by
        simp [pyContains, hsome]
      by_cases hr : st.redisAvailable
      · constructor
        · simp [db_create_user, pyTruthy, JFields.isNil, hc, hr, hid,
                hname, hemail, hct, redisEncodeObj, redisEncodeVal]
        · simp [db_create_user, db_get_user, pyTruthy, JFields.isNil,
                hc, hr, hid, hname, hemail, hct, redisEncodeObj,
                redisEncodeVal, userKey, pyStrJ, hnat,
                assocSet_lookup_self, decodeUser, rfieldToInt,
                rfieldToStr, List.lookup]
      · constructor
        · simp [db_create_user, pyTruthy, JFields.isNil, hc, hr, hid,
                hname, hemail, hct, pyHashable, pyMaxCounter]
        · simp [db_create_user, db_get_user, pyTruthy, JFields.isNil,
                hc, hr, hid, hname, hemail, hct, pyHashable,
                pyMaxCounter, hnat, assocSet_lookup_self, JVal.obj,
                JFields.ofList]

/-- C3 witness: creating Ada on a fresh fallback store assigns id 1 and a
get of id 1 returns the same record. -/
theorem C3_create_then_get_witness :
    (db_create_user (some (.obj [("name", .jstr "Ada")])) 3 initMemState).1
      = .resp 201 (.obj
          [("user", .obj [("id", .jint 1), ("name", .jstr "Ada"),
                          ("email", .jstr ""), ("created_at", .jint 3)]),
           ("storage", .jstr "memory")]) ∧
    db_get_user 1
        (db_create_user (some (.obj [("name", .jstr "Ada")])) 3
          initMemState).2
      = .resp 200 (.obj
          [("user", .obj [("id", .jint 1), ("name", .jstr "Ada"),
                          ("email", .jstr ""), ("created_at", .jint 3)]),
           ("storage", .jstr "memory")]) :=
  C3_create_then_get initMemState (JFields.ofList [("name", .jstr "Ada")]) 3
    "Ada" "" 3 1 rfl (by decide) rfl rfl rfl (by decide)

/-- C5: over every sequence of create and delete operations on the fallback
store, the id counter stays strictly greater than every integer id ever
inserted (caller-supplied ids included, deletions notwithstanding), so the
next auto-assigned id never equals an id ever inserted before. -/
theorem C5_fallback_counter_invariant (ops : List DbOp) :
    (∀ n : Int,
        (JVal.jint n) ∈ (runDbHist ops initMemState []).2 →
        n < (runDbHist ops initMemState []).1.memory_counter) ∧
    (JVal.jint (runDbHist ops initMemState []).1.memory_counter)
      ∉ (runDbHist ops initMemState []).2 := by
  have hinv := runDbHist_inv ops initMemState [] rfl (by simp)
    (by simp [initMemState])
  exact ⟨hinv.2.1, fun hm => lt_irrefl _ (hinv.2.1 _ hm)⟩

/-- C5 witness: after creating one record and deleting it, id 1 is in the
insertion history and stays below the counter. -/
theorem C5_fallback_counter_invariant_witness :
    1 < (runDbHist
        [.createOp (some (.obj [("name", .jstr "a")])) 0, .deleteOp 1]
        initMemState []).1.memory_counter :=
  (C5_fallback_counter_invariant
      [.createOp (some (.obj [("name", .jstr "a")])) 0, .deleteOp 1]).1 1
    (by decide)

/-- C6 counterexample: in fallback mode, a create that supplies the
explicit id 1 right after the auto-assigned record 1 exists returns a
record with the same id 1 and replaces the existing record; and in redis
mode even two consecutive id-less creates both receive id 1 — the counter
is never incremented there — so the second `HSET` overwrites the first
record.  Ids are therefore not unique and records are replaced, refuting
the claim. -/
theorem C6_counterexample_supplied_id_replaces :
    ((db_create_user (some (.obj [("name", .jstr "a")])) 1 initMemState).1
      = .resp 201 (.obj
          [("user", .obj [("id", .jint 1), ("name", .jstr "a"),
                          ("email", .jstr ""), ("created_at", .jint 1)]),
           ("storage", .jstr "memory")]) ∧
    (db_create_user (some (.obj [("name", .jstr "b"), ("id", .jint 1)])) 2
        (db_create_user (some (.obj [("name", .jstr "a")])) 1
          initMemState).2).1
      = .resp 201 (.obj
          [("user", .obj [("id", .jint 1), ("name", .jstr "b"),
                          ("email", .jstr ""), ("created_at", .jint 2)]),
           ("storage", .jstr "memory")]) ∧
    (db_create_user (some (.obj [("name", .jstr "b"), ("id", .jint 1)])) 2
        (db_create_user (some (.obj [("name", .jstr "a")])) 1
          initMemState).2).2.memory_users
      = [(.jint 1, .obj [("id", .jint 1), ("name", .jstr "b"),
                         ("email", .jstr ""), ("created_at", .jint 2)])]) ∧
    ((db_create_user (some (.obj [("name", .jstr "a")])) 1
        ⟨true, ⟨[]⟩, [], 1⟩).1
      = .resp 201 (.obj
          [("user", .obj [("id", .jint 1), ("name", .jstr "a"),
                          ("email", .jstr ""), ("created_at", .jint 1)]),
           ("storage", .jstr "redis")]) ∧
    (db_create_user (some (.obj [("name", .jstr "b")])) 2
        (db_create_user (some (.obj [("name", .jstr "a")])) 1
          ⟨true, ⟨[]⟩, [], 1⟩).2).1
      = .resp 201 (.obj
          [("user", .obj [("id", .jint 1), ("name", .jstr "b"),
                          ("email", .jstr ""), ("created_at", .jint 2)]),
           ("storage", .jstr "redis")]) ∧
    (db_create_user (some (.obj [("name", .jstr "b")])) 2
        (db_create_user (some (.obj [("name", .jstr "a")])) 1
          ⟨true, ⟨[]⟩, [], 1⟩).2).2.redis.data
      = [("user:1", .rhash [("id", .fint 1), ("name", .fstr "b"),
                            ("email", .fstr ""),
                            ("created_at", .fint 2)])]) :=
  ⟨⟨rfl, rfl, rfl⟩, rfl, rfl, rfl⟩

/-- C6 (amended): on the Fallback store, a create that does not supply an
id, performed after any sequence of creates and deletes, returns a record
whose id is the current counter — an id that never belonged to any
previously created record — and appends it, leaving every existing record
in place.  This does not extend to External mode: there `create_user`
never touches the fallback counter (last conjunct), so the id defaulted
from it repeats across id-less creates and the repeated `HSET` key
overwrites, as the counterexample shows. -/
theorem C6_auto_assigned_ids_fresh (ops : List DbOp) (st : DbState)
    (hist : List JVal) (fs : JFields) (now : Int)
    (hrun : runDbHist ops initMemState [] = (st, hist))
    (hname : (fs.lookup "name").isSome)
    (hnoid : fs.lookup "id" = none) :
    (db_create_user (some (.jobj fs)) now st).1
      = .resp 201 (.obj
          [("user", .obj
              [("id", .jint st.memory_counter),
               ("name", (fs.lookup "name").getD .jnull),
               ("email", (fs.lookup "email").getD (.jstr "")),
               ("created_at", (fs.lookup "created_at").getD (.jint now))]),
           ("storage", .jstr "memory")]) ∧
    (JVal.jint st.memory_counter) ∉ hist ∧
    (db_create_user (some (.jobj fs)) now st).2.memory_users
      = st.memory_users
          ++ [(.jint st.memory_counter, .obj
              [("id", .jint st.memory_counter),
               ("name", (fs.lookup "name").getD .jnull),
               ("email", (fs.lookup "email").getD (.jstr "")),
               ("created_at",
                  (fs.lookup "created_at").getD (.jint now))])] ∧
    (∀ (body : Option JVal) (now2 : Int) (stR : DbState),
        stR.redisAvailable = true →
        (db_create_user body now2 stR).2.memory_counter
            = stR.memory_counter ∧
        (db_create_user body now2 stR).2.memory_users
            = stR.memory_users) := by
  have hinv := runDbHist_inv ops initMemState [] rfl (by simp)
    (by simp [initMemState])
  rw [hrun] at hinv
  obtain ⟨hred0, hctr0, hkeys0⟩ := hinv
  have hred : st.redisAvailable = false := hred0
  have hctr : ∀ n : Int, (JVal.jint n) ∈ hist → n < st.memory_counter :=
    hctr0
  have hkeys : ∀ kv ∈ st.memory_users, kv.1 ∈ hist := hkeys0
  have hfresh : (JVal.jint st.memory_counter) ∉ hist := fun hm =>
    lt_irrefl _ (hctr _ hm)
  have hfs : fs.isNil = false := lookup_isSome_not_isNil hname
  have ht : pyTruthy (.jobj fs) = true := by simp [pyTruthy, hfs]
  have hc : pyContains "name" (.jobj fs) = .yes := by
    simp [pyContains, hname]
  have hid : (fs.lookup "id").getD (.jint st.memory_counter)
      = .jint st.memory_counter := by rw [hnoid]; rfl
  refine ⟨?_, hfresh, ?_, ?_⟩
  · simp [db_create_user, ht, hc, hred, hid, pyHashable, pyMaxCounter]
  · have hne : ∀ kv ∈ st.memory_users,
        kv.1 ≠ JVal.jint st.memory_counter := by
      intro kv hkv heq
      exact hfresh (heq ▸ hkeys kv hkv)
    simp [db_create_user, ht, hc, hred, hid, pyHashable, pyMaxCounter,
          assocSet_append _ _ _ hne]
  · intro body now2 stR hR
    cases body with
    | none => exact ⟨rfl, rfl⟩
    | some data =>
      by_cases ht2 : pyTruthy data
      · cases hc2 : pyContains "name" data with
        | typeErr => simp [db_create_user, ht2, hc2]
        | no => simp [db_create_user, ht2, hc2]
        | yes =>
          cases data with
          | jobj fs2 =>
              refine ⟨?_, ?_⟩ <;>
              · simp only [db_create_user, ht2, hc2, hR]
                simp only [Bool.not_true, Bool.false_eq_true, if_false,
                  if_true]
                split <;> rfl
          | jnull => simp [pyContains] at hc2
          | jbool b => simp [pyContains] at hc2
          | jint n => simp [pyContains] at hc2
          | jstr s => simp [db_create_user, ht2, hc2]
          | jarr l => simp [db_create_user, ht2, hc2]
      · simp [db_create_user, ht2]

/-- C6 witness: after create-then-delete of record 1, an id-less create on
the fallback store assigns the never-reused id 2 and appends to the empty
store; on a concrete redis-mode state the same create leaves the fallback
counter untouched. -/
theorem C6_auto_assigned_ids_fresh_witness :
    (db_create_user (some (.obj [("name", .jstr "b")])) 5
        ⟨false, ⟨[]⟩, [], 2⟩).1
      = .resp 201 (.obj
          [("user", .obj [("id", .jint 2), ("name", .jstr "b"),
                          ("email", .jstr ""), ("created_at", .jint 5)]),
           ("storage", .jstr "memory")]) ∧
    (JVal.jint 2) ∉ [JVal.jint 1] ∧
    (db_create_user (some (.obj [("name", .jstr "b")])) 5
        ⟨true, ⟨[]⟩, [], 1⟩).2.memory_counter = 1 :=
  have h := C6_auto_assigned_ids_fresh
    [.createOp (some (.obj [("name", .jstr "a")])) 0, .deleteOp 1]
    ⟨false, ⟨[]⟩, [], 2⟩ [.jint 1]
    (JFields.ofList [("name", .jstr "b")]) 5 rfl (by decide) rfl
  ⟨h.1, h.2.1,
   (h.2.2.2 (some (.obj [("name", .jstr "b")])) 5 ⟨true, ⟨[]⟩, [], 1⟩
      rfl).1⟩

end DdOtel
